import Mathlib

/-!
Shallow embedding of src/chrome-driver-manager/DriverManager.py.

Python values appearing in the manifest dict are modelled by `PyVal`;
dict subscripting that can raise KeyError or TypeError is modelled by
`Except PyErr`.  External I/O (HTTP, filesystem, process output) is
supplied through environment records; performed side effects are
returned as an explicit `Effect` list.
-/

namespace ChromeDriverManager

/-- A JSON-like Python value stored in the manifest dict. -/
inductive PyVal where
  | pyNone : PyVal
  | str (s : String) : PyVal
  | list (xs : List PyVal) : PyVal
  | dict (kvs : List (String × PyVal)) : PyVal
deriving Repr

/-- Python exceptions that the embedded code can raise. -/
inductive PyErr where
  | keyError (key : String) : PyErr
  | typeError (msg : String) : PyErr
  | attributeError (msg : String) : PyErr
  | uncaught (msg : String) : PyErr
deriving Repr, DecidableEq

/-- The manifest (self.config): a Python dict with string keys. -/
abbrev Config := List (String × PyVal)

/-- Observable side effects of the manager. -/
inductive Effect where
  | netGet (url : String) : Effect
  | wgetDownload (url : String) (dest : String) : Effect
  | mkdir (path : String) : Effect
  | extractZip (src : String) (dst : String) : Effect
  | removeFile (path : String) : Effect
  | writeConfig (content : Config) : Effect
deriving Repr

/-- Association-list lookup: Python dict subscript read (None when absent). -/
def assocGet : Config → String → Option PyVal
  | [], _ => none
  | (k, v) :: rest, key => if k = key then some v else assocGet rest key

/-- Association-list update: Python dict assignment (replace in place, else append). -/
def assocSet : Config → String → PyVal → Config
  | [], key, v => [(key, v)]
  | (k, w) :: rest, key, v =>
      if k = key then (k, v) :: rest else (k, w) :: assocSet rest key v

/-- Python truthiness of a manifest value (None, empty str, empty containers are falsy). -/
def truthy : PyVal → Bool
  | .pyNone => false
  | .str s => !(s = "")
  | .list xs => !xs.isEmpty
  | .dict kvs => !kvs.isEmpty

/-- Python equality of a str against an arbitrary value (False on type mismatch). -/
def pyEqStr (curr : String) (v : PyVal) : Bool :=
  match v with
  | .str s => curr = s
  | _ => false

/-- self.config[key]: raises KeyError when the key is absent. -/
def configGet (config : Config) (key : String) : Except PyErr PyVal :=
  match assocGet config key with
  | some v => .ok v
  | none => .error (.keyError key)

/-- value[key] on an arbitrary Python value: KeyError on a dict missing the
key, TypeError when the value is not subscriptable by a string. -/
def pySubscript (v : PyVal) (key : String) : Except PyErr PyVal :=
  match v with
  | .dict kvs =>
      match assocGet kvs key with
      | some w => .ok w
      | none => .error (.keyError key)
  | _ => .error (.typeError "value is not subscriptable by str")

/-- os.path.join on a POSIX host. -/
def ospathJoin (a b : String) : String := a ++ "/" ++ b

/-- DriverManager.__getBuildTarget (DriverManager.py lines 176-186). -/
def getBuildTarget (platform : String) : String :=
  if platform = "win32" then "win32"
  else if platform = "darwin" then "mac64" else "linux64"

/-- Index of the rightmost dot in a character list: version.rfind of a dot,
with `none` standing for the Python result -1. -/
def lastDotIndex : List Char → Option Nat
  | [] => none
  | c :: rest =>
      match lastDotIndex rest with
      | some i => some (i + 1)
      | none => if c = '.' then some 0 else none

/-- DriverManager.removePatch (lines 227-238): slice the version string up to
the rightmost dot, or return it unchanged when there is no dot. -/
def removePatch (version : String) : String :=
  match lastDotIndex version.data with
  | some i => ⟨version.data.take i⟩
  | none => version

/-- DriverManager.__getMajorVersion (lines 133-143): version.split at dots,
component 0, i.e. the characters before the first dot. -/
def getMajorVersion (version : String) : String :=
  ⟨version.data.takeWhile (fun c => !(c = '.'))⟩

/-- self.__getMajorVersion applied to a manifest value: .split exists only on
str, so a non-str argument raises AttributeError. -/
def pyMajorVersion (v : PyVal) : Except PyErr String :=
  match v with
  | .str s => .ok (getMajorVersion s)
  | _ => .error (.attributeError "object has no attribute split")

/-- Environment for version detection.  The win32 registry query and the
Program Files scan are filesystem/process interactions abstracted to their
results: `registryVersion` is the outcome of the inner try body of
getChromeVersion (error means an exception was caught and the folder
fallback runs), `folderVersion` the result of __extractVersionFolder. -/
structure DetectEnv where
  registryVersion : Except Unit (Option String)
  folderVersion : Option String

/-- The AttributeError raised by the final return expression of
getChromeVersion: the code calls .read() on the command f-string itself
(os.popen receives the result), and str has no read method. -/
def strReadMsg : String := "str object has no attribute read"

/-- DriverManager.getChromeVersion (lines 95-131).  On linux, linux2 and
darwin the try block only assigns installPath, so version stays None; on
win32 version comes from the registry query, falling back to the Program
Files scan on an exception.  The trailing return evaluates
(f-string).read() whenever version is falsy, raising AttributeError. -/
def getChromeVersion (platform : String) (env : DetectEnv) : Except PyErr String :=
  let version : Option String :=
    if platform = "linux" || platform = "linux2" then none
    else if platform = "darwin" then none
    else if platform = "win32" then
      match env.registryVersion with
      | .ok v => v
      | .error _ => env.folderVersion
    else none
  match version with
  | some v => if v = "" then .error (.attributeError strReadMsg) else .ok v
  | none => .error (.attributeError strReadMsg)

/-- An HTTP response as seen by requests.get. -/
structure NetResponse where
  status_code : Nat
  text : String

/-- Environment for downloadDriver: the LATEST_RELEASE response (error means
requests.get raised a transport exception), the os.path.exists oracle, the
outcomes of wget.download and ZipFile.extractall, and the current time. -/
structure DlEnv where
  latestRelease : Except Unit NetResponse
  dirExists : String → Bool
  wgetResult : Except Unit Unit
  extractResult : Except Unit Unit
  now : String

/-- URL of the LATEST_RELEASE metadata lookup for a browser version. -/
def latestReleaseUrl (version : String) : String :=
  "https://chromedriver.storage.googleapis.com/LATEST_RELEASE_" ++ removePatch version

/-- DriverManager.__getCompatibleDriver (lines 145-164): on a transport
exception the handler prints and the function falls through returning None;
on a non-200 status it returns None; on 200 it returns the body text. -/
def getCompatibleDriver (env : DlEnv) (version : String) : Option String :=
  match env.latestRelease with
  | .error _ => none
  | .ok r => if r.status_code = 200 then some r.text else none

/-- TypeError raised by os.path.join when its second argument is None. -/
def joinNoneMsg : String := "join argument must be str, not NoneType"

/-- DriverManager.downloadDriver (lines 46-93).  Resolves the compatible
driver version, short-circuits when the cache directory for it already
exists, otherwise downloads, extracts, removes the archive and updates the
manifest (append record, set lastDownloadedDriver, set
currentChromeVersion) and persists it via __updateConfig (which also stamps
lastUpdated).  A None driver version makes the cache-check
os.path.join raise TypeError. -/
def downloadDriver (platform filesPath : String) (env : DlEnv) (config : Config)
    (version : String) : Except PyErr (Config × List Effect) :=
  let metaEff := Effect.netGet (latestReleaseUrl version)
  match getCompatibleDriver env version with
  | none => .error (.typeError joinNoneMsg)
  | some driverVersion =>
    if env.dirExists (ospathJoin filesPath driverVersion) then
      .ok (config, [metaEff])
    else
      let compatibleBuild := "chromedriver_" ++ getBuildTarget platform ++ ".zip"
      let downloadUrl :=
        "https://chromedriver.storage.googleapis.com/" ++ driverVersion ++ "/" ++ compatibleBuild
      match env.wgetResult with
      | .error _ => .error (.uncaught "wget download failed")
      | .ok _ =>
        let downloadDir := ospathJoin filesPath driverVersion
        match env.extractResult with
        | .error _ => .error (.uncaught "zip extraction failed")
        | .ok _ =>
          let driverConfig : PyVal := .dict
            [("version", .str driverVersion),
             ("chromeVersion", .str version),
             ("driverPath", .str (ospathJoin downloadDir "chromedriver.exe")),
             ("downloadedOn", .str env.now)]
          match assocGet config "downloadedDrivers" with
          | some (.list drivers) =>
              let c1 := assocSet config "downloadedDrivers" (.list (drivers ++ [driverConfig]))
              let c2 := assocSet c1 "lastDownloadedDriver" driverConfig
              let c3 := assocSet c2 "currentChromeVersion" (.str version)
              let c4 := assocSet c3 "lastUpdated" (.str env.now)
              .ok (c4,
                [metaEff,
                 .wgetDownload downloadUrl filesPath,
                 .mkdir downloadDir,
                 .extractZip (ospathJoin filesPath compatibleBuild) downloadDir,
                 .removeFile (ospathJoin filesPath compatibleBuild),
                 .writeConfig c4])
          | some _ => .error (.attributeError "object has no attribute append")
          | none => .error (.keyError "downloadedDrivers")

/-- The return expression used by every branch of getPath:
self.config with subscript lastDownloadDriver, then subscript driverPath.
Note the key spelled without the letters e and d in the middle, which no
writer of the manifest ever produces. -/
def getPathReturn (config : Config) : Except PyErr PyVal :=
  match configGet config "lastDownloadDriver" with
  | .error e => .error e
  | .ok rec => pySubscript rec "driverPath"

/-- DriverManager.getPath (lines 23-44): detect the browser version, then
branch on the manifest exactly as the source does. -/
def getPath (platform filesPath : String) (denv : DetectEnv) (env : DlEnv)
    (config : Config) : Except PyErr (PyVal × Config × List Effect) :=
  match getChromeVersion platform denv with
  | .error e => .error e
  | .ok curr =>
    match configGet config "currentChromeVersion" with
    | .error e => .error e
    | .ok cv =>
      if truthy cv = false then
        match downloadDriver platform filesPath env config curr with
        | .error e => .error e
        | .ok (cfg, effs) =>
          match getPathReturn cfg with
          | .error e => .error e
          | .ok p => .ok (p, cfg, effs)
      else if pyEqStr curr cv then
        match getPathReturn config with
        | .error e => .error e
        | .ok p => .ok (p, config, [])
      else
        match configGet config "lastDownloadedDriver" with
        | .error e => .error e
        | .ok ldd =>
          match pySubscript ldd "chromeVersion" with
          | .error e => .error e
          | .ok lv =>
            match pyMajorVersion lv with
            | .error e => .error e
            | .ok lmaj =>
              if getMajorVersion curr = lmaj then
                match getPathReturn config with
                | .error e => .error e
                | .ok p => .ok (p, config, [])
              else
                match downloadDriver platform filesPath env config curr with
                | .error e => .error e
                | .ok (cfg, effs) =>
                  match getPathReturn cfg with
                  | .error e => .error e
                  | .ok p => .ok (p, cfg, effs)

/-- Filesystem environment for construction: the home directory, whether
config.json exists, its content when it does, and the current time. -/
structure FsEnv where
  home : String
  configExists : Bool
  configOnDisk : Config
  now : String

/-- The default manifest created by __readConfig when config.json is absent. -/
def defaultConfig (now : String) : Config :=
  [("downloadedDrivers", .list []),
   ("currentChromeVersion", .pyNone),
   ("lastDownloadedDriver", .dict []),
   ("lastUpdated", .str now)]

/-- DriverManager.__readConfig (lines 240-261).  Its first statement joins
self.filesPath with config.json, so when the filesPath attribute has not
been assigned yet the access raises AttributeError; `filesPath` is therefore
an Option reflecting the attributes assigned so far. -/
def readConfig (filesPath : Option String) (env : FsEnv) :
    Except PyErr (Config × List Effect) :=
  match filesPath with
  | none => .error (.attributeError "DriverManager object has no attribute filesPath")
  | some _ =>
      if env.configExists then .ok (env.configOnDisk, [])
      else .ok (defaultConfig env.now, [Effect.writeConfig (defaultConfig env.now)])

/-- The manager state after a completed __init__. -/
structure Manager where
  platform : String
  chromeVersion : String
  config : Config
  filesPath : String

/-- DriverManager.__init__ (lines 13-21), in source order: set platform,
detect the browser version, read the config (at which point self.filesPath
is not yet an attribute), then assign filesPath and ensure the directory. -/
def managerInit (platform : String) (denv : DetectEnv) (fenv : FsEnv) :
    Except PyErr (Manager × List Effect) :=
  match getChromeVersion platform denv with
  | .error e => .error e
  | .ok v =>
    match readConfig (none : Option String) fenv with
    | .error e => .error e
    | .ok (cfg, effs) =>
      let filesPath := ospathJoin fenv.home ".chrome-drivers"
      .ok ({ platform := platform, chromeVersion := v, config := cfg,
             filesPath := filesPath },
           effs ++ [Effect.mkdir filesPath])

/-! Helper lemmas about the association-list manifest. -/

theorem assocGet_assocSet_self (kvs : Config) (k : String) (v : PyVal) :
    assocGet (assocSet kvs k v) k = some v := by
  induction kvs with
  | nil => simp [assocSet, assocGet]
  | cons kv rest ih =>
      obtain ⟨k2, w⟩ := kv
      by_cases h : k2 = k <;> simp [assocSet, assocGet, h, ih]

theorem assocGet_assocSet_ne (kvs : Config) (k key : String) (v : PyVal)
    (h : k ≠ key) : assocGet (assocSet kvs k v) key = assocGet kvs key := by
  induction kvs with
  | nil => simp [assocSet, assocGet, h]
  | cons kv rest ih =>
      obtain ⟨k2, w⟩ := kv
      by_cases h2 : k2 = k
      · subst h2
        simp [assocSet, assocGet, h]
      · by_cases h3 : k2 = key <;> simp [assocSet, assocGet, h2, h3, ih, Ne.symm h]

/-! Concrete sample states used to evaluate the embedded code. -/

/-- Detection environment for a win32 host whose registry query succeeds
with Chrome version 96.0.4664.45. -/
def denvWin : DetectEnv :=
  { registryVersion := .ok (some "96.0.4664.45"), folderVersion := none }

/-- Download environment whose metadata request raises a transport error. -/
def dlenvIdle : DlEnv :=
  { latestRelease := .error (), dirExists := fun _ => false,
    wgetResult := .ok (), extractResult := .ok (), now := "01/01/2022 00:00:00" }

/-- A fully populated DriverRecord for driver 96.0.4664.45. -/
def cachedRecord : PyVal := .dict
  [("version", .str "96.0.4664.45"),
   ("chromeVersion", .str "96.0.4664.45"),
   ("driverPath", .str "/home/user/.chrome-drivers/96.0.4664.45/chromedriver.exe"),
   ("downloadedOn", .str "01/01/2022 00:00:00")]

/-- Manifest recording currentChromeVersion 96.0.4664.45 with a matching
lastDownloadedDriver record, exactly as downloadDriver would have written it. -/
def configSameVersion : Config :=
  [("downloadedDrivers", .list [cachedRecord]),
   ("currentChromeVersion", .str "96.0.4664.45"),
   ("lastDownloadedDriver", cachedRecord),
   ("lastUpdated", .str "01/01/2022 00:00:00")]

/-- A DriverRecord paired with browser version 96.0.4664.10. -/
def cachedRecordOlder : PyVal := .dict
  [("version", .str "96.0.4664.10"),
   ("chromeVersion", .str "96.0.4664.10"),
   ("driverPath", .str "/home/user/.chrome-drivers/96.0.4664.10/chromedriver.exe"),
   ("downloadedOn", .str "01/01/2022 00:00:00")]

/-- Manifest recording currentChromeVersion 96.0.4664.10 with the matching
record, against which the detected version 96.0.4664.45 differs only in the
final component. -/
def configMajorMatch : Config :=
  [("downloadedDrivers", .list [cachedRecordOlder]),
   ("currentChromeVersion", .str "96.0.4664.10"),
   ("lastDownloadedDriver", cachedRecordOlder),
   ("lastUpdated", .str "01/01/2022 00:00:00")]

/-! Claim theorems. -/

/-- C1: the claim says that when the detected browser version equals the
recorded currentChromeVersion, getPath returns the cached driverPath without
downloading.  On the code this is false: the equal-version branch returns
self.config subscripted with the key lastDownloadDriver, a key the manifest
never contains (the writer uses lastDownloadedDriver), so getPath raises
KeyError instead of returning the cached path. -/
theorem getPath_equal_version_raises_keyerror :
    getPath "win32" "/home/user/.chrome-drivers" denvWin dlenvIdle configSameVersion =
      .error (.keyError "lastDownloadDriver") := rfl

/-- C2: the claim says that when only the major version component matches the
last-downloaded driver pairing (detected 96.0.4664.45 against recorded
96.0.4664.10), getPath returns the cached path without downloading.  On the
code the major components do compare equal in that branch, but its return
again reads the nonexistent key lastDownloadDriver, so getPath raises
KeyError rather than returning the cached path. -/
theorem getPath_major_match_raises_keyerror :
    getPath "win32" "/home/user/.chrome-drivers" denvWin dlenvIdle configMajorMatch =
      .error (.keyError "lastDownloadDriver") := rfl

/-- C5: the claim says construction loads the manifest once, creating and
persisting a default manifest when the file is absent, and succeeds.  On the
code construction always fails: __init__ invokes self.__readConfig() before
assigning self.filesPath, and the first statement of __readConfig reads
self.filesPath, raising AttributeError whatever the filesystem contains. -/
theorem managerInit_raises_attribute_error (fenv : FsEnv) :
    managerInit "win32" denvWin fenv =
      .error (.attributeError "DriverManager object has no attribute filesPath") := rfl

/-- C7: the claim says that on linux, linux2 and darwin the browser binary is
invoked with a version flag and the output parsed, returning None rather than
raising on failure.  On the code the non-Windows branches only assign
installPath, leaving version falsy, and the final return expression calls
.read() on the command string itself, so getChromeVersion raises
AttributeError on every non-Windows platform and never runs the binary. -/
theorem getChromeVersion_non_windows_raises (env : DetectEnv) :
    getChromeVersion "linux" env = .error (.attributeError strReadMsg) ∧
    getChromeVersion "linux2" env = .error (.attributeError strReadMsg) ∧
    getChromeVersion "darwin" env = .error (.attributeError strReadMsg) :=
  ⟨rfl, rfl, rfl⟩

/-- C9: __getBuildTarget maps win32 to win32, darwin to mac64, linux to
linux64, and every other platform identifier to linux64. -/
theorem getBuildTarget_mapping :
    getBuildTarget "win32" = "win32" ∧ getBuildTarget "darwin" = "mac64" ∧
    getBuildTarget "linux" = "linux64" ∧
    ∀ p : String, p ≠ "win32" → p ≠ "darwin" → getBuildTarget p = "linux64" := by
  refine ⟨rfl, rfl, rfl, ?_⟩
  intro p h1 h2
  simp [getBuildTarget, h1, h2]

/-- Witness for C9 at the unrecognized platform identifier sunos. -/
theorem getBuildTarget_mapping_witness : getBuildTarget "sunos" = "linux64" :=
  getBuildTarget_mapping.2.2.2 "sunos" (by decide) (by decide)

/-- C6: when the LATEST_RELEASE request raises a transport error or returns a
non-200 status, __getCompatibleDriver swallows the failure and yields None,
and downloadDriver continues into the cache check, where joining the cache
root with that None raises TypeError: the failure surfacing from
downloadDriver is the downstream join TypeError, never a propagated network
exception. -/
theorem metadata_failure_yields_none_and_continues
    (platform filesPath version : String) (env : DlEnv) (config : Config)
    (h : env.latestRelease = .error () ∨
         ∃ r, env.latestRelease = .ok r ∧ r.status_code ≠ 200) :
    getCompatibleDriver env version = none ∧
    downloadDriver platform filesPath env config version =
      .error (.typeError joinNoneMsg) := by
  have hc : getCompatibleDriver env version = none := by
    rcases h with h | ⟨r, hr, hs⟩
    · simp [getCompatibleDriver, h]
    · simp [getCompatibleDriver, hr, hs]
  exact ⟨hc, by simp [downloadDriver, hc]⟩

/-- Witness for C6: a concrete transport failure. -/
theorem metadata_failure_witness :
    getCompatibleDriver dlenvIdle "96.0.4664.45" = none ∧
    downloadDriver "linux" "/home/user/.chrome-drivers" dlenvIdle
        (defaultConfig "01/01/2022 00:00:00") "96.0.4664.45" =
      .error (.typeError joinNoneMsg) :=
  metadata_failure_yields_none_and_continues "linux" "/home/user/.chrome-drivers"
    "96.0.4664.45" dlenvIdle (defaultConfig "01/01/2022 00:00:00") (Or.inl rfl)

/-- C4: when the resolved driver version already has a directory under the
cache root, downloadDriver returns with the manifest unchanged (the returned
config is the input config, so every field is unchanged), performs no archive
download, and never persists (no writeConfig effect, so the on-disk manifest
is also untouched). -/
theorem downloadDriver_short_circuit_frame
    (platform filesPath version : String) (env : DlEnv) (config : Config)
    (r : NetResponse)
    (hnet : env.latestRelease = .ok r)
    (hstatus : r.status_code = 200)
    (hdir : env.dirExists (ospathJoin filesPath r.text) = true) :
    ∃ effs, downloadDriver platform filesPath env config version = .ok (config, effs) ∧
      (∀ c : Config, Effect.writeConfig c ∉ effs) ∧
      (∀ u d : String, Effect.wgetDownload u d ∉ effs) := by
  have hc : getCompatibleDriver env version = some r.text := by
    simp [getCompatibleDriver, hnet, hstatus]
  refine ⟨[Effect.netGet (latestReleaseUrl version)], ?_, ?_, ?_⟩
  · simp [downloadDriver, hc, hdir]
  · intro c hmem
    simp at hmem
  · intro u d hmem
    simp at hmem

/-- Download environment that finds the release 96.0.4664.35 and whose cache
root already holds a directory for every driver version. -/
def dlenvHit : DlEnv :=
  { latestRelease := .ok { status_code := 200, text := "96.0.4664.35" },
    dirExists := fun _ => true, wgetResult := .ok (), extractResult := .ok (),
    now := "02/01/2022 10:00:00" }

/-- Witness for C4 at a concrete environment and manifest. -/
theorem downloadDriver_short_circuit_witness :
    ∃ effs, downloadDriver "linux" "/home/user/.chrome-drivers" dlenvHit
        configSameVersion "96.0.4664.45" = .ok (configSameVersion, effs) ∧
      (∀ c : Config, Effect.writeConfig c ∉ effs) ∧
      (∀ u d : String, Effect.wgetDownload u d ∉ effs) :=
  downloadDriver_short_circuit_frame "linux" "/home/user/.chrome-drivers"
    "96.0.4664.45" dlenvHit configSameVersion
    { status_code := 200, text := "96.0.4664.35" } rfl rfl rfl

/-- The DriverRecord built by downloadDriver for a resolved driver version. -/
def newRecord (filesPath driverVersion version now : String) : PyVal := .dict
  [("version", .str driverVersion),
   ("chromeVersion", .str version),
   ("driverPath", .str (ospathJoin (ospathJoin filesPath driverVersion) "chromedriver.exe")),
   ("downloadedOn", .str now)]

/-- The manifest produced by the success path of downloadDriver followed by
__updateConfig. -/
def manifestAfter (config : Config) (drivers : List PyVal)
    (filesPath driverVersion version now : String) : Config :=
  assocSet (assocSet (assocSet
    (assocSet config "downloadedDrivers"
      (.list (drivers ++ [newRecord filesPath driverVersion version now])))
    "lastDownloadedDriver" (newRecord filesPath driverVersion version now))
    "currentChromeVersion" (.str version))
    "lastUpdated" (.str now)

/-- The effect trace of the success path of downloadDriver. -/
def effectsAfter (platform filesPath driverVersion version : String)
    (cfg : Config) : List Effect :=
  [.netGet (latestReleaseUrl version),
   .wgetDownload ("https://chromedriver.storage.googleapis.com/" ++ driverVersion
     ++ "/" ++ ("chromedriver_" ++ getBuildTarget platform ++ ".zip")) filesPath,
   .mkdir (ospathJoin filesPath driverVersion),
   .extractZip (ospathJoin filesPath ("chromedriver_" ++ getBuildTarget platform ++ ".zip"))
     (ospathJoin filesPath driverVersion),
   .removeFile (ospathJoin filesPath ("chromedriver_" ++ getBuildTarget platform ++ ".zip")),
   .writeConfig cfg]

/-- C3: on the non-short-circuited, error-free path, downloadDriver appends
exactly one new DriverRecord to downloadedDrivers, sets it as
lastDownloadedDriver, sets currentChromeVersion to the input version, and
persists the updated manifest (a writeConfig effect carrying it). -/
theorem downloadDriver_success_updates_manifest
    (platform filesPath version : String) (env : DlEnv) (config : Config)
    (r : NetResponse) (drivers : List PyVal)
    (hnet : env.latestRelease = .ok r)
    (hstatus : r.status_code = 200)
    (hdir : env.dirExists (ospathJoin filesPath r.text) = false)
    (hwget : env.wgetResult = .ok ())
    (hzip : env.extractResult = .ok ())
    (hdrivers : assocGet config "downloadedDrivers" = some (.list drivers)) :
    ∃ rec cfg effs,
      downloadDriver platform filesPath env config version = .ok (cfg, effs) ∧
      assocGet cfg "downloadedDrivers" = some (.list (drivers ++ [rec])) ∧
      (drivers ++ [rec]).length = drivers.length + 1 ∧
      assocGet cfg "lastDownloadedDriver" = some rec ∧
      assocGet cfg "currentChromeVersion" = some (.str version) ∧
      Effect.writeConfig cfg ∈ effs := by
  have hc : getCompatibleDriver env version = some r.text := by
    simp [getCompatibleDriver, hnet, hstatus]
  refine ⟨newRecord filesPath r.text version env.now,
    manifestAfter config drivers filesPath r.text version env.now,
    effectsAfter platform filesPath r.text version
      (manifestAfter config drivers filesPath r.text version env.now),
    ?_, ?_, ?_, ?_, ?_, ?_⟩
  · simp [downloadDriver, hc, hdir, hwget, hzip, hdrivers,
      newRecord, manifestAfter, effectsAfter]
  · rw [manifestAfter, assocGet_assocSet_ne _ _ _ _ (by decide),
        assocGet_assocSet_ne _ _ _ _ (by decide),
        assocGet_assocSet_ne _ _ _ _ (by decide), assocGet_assocSet_self]
  · simp
  · rw [manifestAfter, assocGet_assocSet_ne _ _ _ _ (by decide),
        assocGet_assocSet_ne _ _ _ _ (by decide), assocGet_assocSet_self]
  · rw [manifestAfter, assocGet_assocSet_ne _ _ _ _ (by decide), assocGet_assocSet_self]
  · simp [effectsAfter]

/-- Download environment that resolves driver 96.0.4664.35 with an empty
cache and working download and extraction. -/
def dlenvOk : DlEnv :=
  { latestRelease := .ok { status_code := 200, text := "96.0.4664.35" },
    dirExists := fun _ => false, wgetResult := .ok (), extractResult := .ok (),
    now := "02/01/2022 10:00:00" }

/-- Witness for C3 at a concrete environment starting from the default
manifest. -/
theorem downloadDriver_success_witness :
    ∃ rec cfg effs,
      downloadDriver "linux" "/home/user/.chrome-drivers" dlenvOk
          (defaultConfig "01/01/2022 00:00:00") "96.0.4664.45" = .ok (cfg, effs) ∧
      assocGet cfg "downloadedDrivers" = some (.list ([] ++ [rec])) ∧
      ([] ++ [rec]).length = ([] : List PyVal).length + 1 ∧
      assocGet cfg "lastDownloadedDriver" = some rec ∧
      assocGet cfg "currentChromeVersion" = some (.str "96.0.4664.45") ∧
      Effect.writeConfig cfg ∈ effs :=
  downloadDriver_success_updates_manifest "linux" "/home/user/.chrome-drivers"
    "96.0.4664.45" dlenvOk (defaultConfig "01/01/2022 00:00:00")
    { status_code := 200, text := "96.0.4664.35" } [] rfl rfl rfl rfl rfl rfl

/-- C10: on every platform, the DriverRecord written by a successful
downloadDriver stores driverPath as the cache directory for the driver
version joined with the fixed name chromedriver.exe; the platform only
influences the archive name, never the recorded executable name, so the
recorded path is identical across win32, darwin and linux build targets. -/
theorem downloadDriver_driverPath_exe_every_platform
    (platform filesPath version : String) (env : DlEnv) (config : Config)
    (r : NetResponse) (drivers : List PyVal)
    (hnet : env.latestRelease = .ok r)
    (hstatus : r.status_code = 200)
    (hdir : env.dirExists (ospathJoin filesPath r.text) = false)
    (hwget : env.wgetResult = .ok ())
    (hzip : env.extractResult = .ok ())
    (hdrivers : assocGet config "downloadedDrivers" = some (.list drivers)) :
    ∃ cfg effs rec,
      downloadDriver platform filesPath env config version = .ok (cfg, effs) ∧
      assocGet cfg "lastDownloadedDriver" = some rec ∧
      pySubscript rec "driverPath" =
        .ok (.str (ospathJoin (ospathJoin filesPath r.text) "chromedriver.exe")) := by
  have hc : getCompatibleDriver env version = some r.text := by
    simp [getCompatibleDriver, hnet, hstatus]
  refine ⟨manifestAfter config drivers filesPath r.text version env.now,
    effectsAfter platform filesPath r.text version
      (manifestAfter config drivers filesPath r.text version env.now),
    newRecord filesPath r.text version env.now, ?_, ?_, ?_⟩
  · simp [downloadDriver, hc, hdir, hwget, hzip, hdrivers,
      newRecord, manifestAfter, effectsAfter]
  · rw [manifestAfter, assocGet_assocSet_ne _ _ _ _ (by decide),
        assocGet_assocSet_ne _ _ _ _ (by decide), assocGet_assocSet_self]
  · rfl

/-- Witness for C10 on darwin, whose archive build target is mac64 while the
recorded executable name is still chromedriver.exe. -/
theorem downloadDriver_driverPath_exe_witness :
    ∃ cfg effs rec,
      downloadDriver "darwin" "/home/user/.chrome-drivers" dlenvOk
          (defaultConfig "01/01/2022 00:00:00") "96.0.4664.45" = .ok (cfg, effs) ∧
      assocGet cfg "lastDownloadedDriver" = some rec ∧
      pySubscript rec "driverPath" =
        .ok (.str (ospathJoin (ospathJoin "/home/user/.chrome-drivers" "96.0.4664.35")
          "chromedriver.exe")) :=
  downloadDriver_driverPath_exe_every_platform "darwin" "/home/user/.chrome-drivers"
    "96.0.4664.45" dlenvOk (defaultConfig "01/01/2022 00:00:00")
    { status_code := 200, text := "96.0.4664.35" } [] rfl rfl rfl rfl rfl rfl

/-- A character list without a dot has no rightmost-dot index: rfind
returns -1. -/
theorem lastDotIndex_of_no_dot (l : List Char) (h : '.' ∉ l) :
    lastDotIndex l = none := by
  induction l with
  | nil => rfl
  | cons c rest ih =>
      have hc : ¬c = '.' := fun hc => h (hc ▸ List.mem_cons_self c rest)
      have hr : '.' ∉ rest := fun hm => h (List.mem_cons_of_mem c hm)
      simp [lastDotIndex, ih hr, hc]

/-- The rightmost dot of a list ending in a dot-free suffix after an
explicit dot sits exactly at the length of the first part. -/
theorem lastDotIndex_append_no_dot (l1 l2 : List Char) (h : '.' ∉ l2) :
    lastDotIndex (l1 ++ '.' :: l2) = some l1.length := by
  induction l1 with
  | nil => simp [lastDotIndex, lastDotIndex_of_no_dot l2 h]
  | cons c rest ih => simp [lastDotIndex, ih]

/-- C8: removePatch truncates its input at the rightmost dot, dropping the
final component, and returns the input unchanged when it contains no dot. -/
theorem removePatch_drops_last_component (a b v : String)
    (hb : '.' ∉ b.data) (hv : '.' ∉ v.data) :
    removePatch (a ++ "." ++ b) = a ∧ removePatch v = v := by
  constructor
  · have hdata : (a ++ "." ++ b).data = a.data ++ '.' :: b.data := by
      rw [String.data_append, String.data_append]
      simp
    unfold removePatch
    rw [hdata, lastDotIndex_append_no_dot a.data b.data hb]
    show String.mk ((a.data ++ '.' :: b.data).take a.data.length) = a
    rw [List.take_left]
  · unfold removePatch
    rw [lastDotIndex_of_no_dot v.data hv]

/-- Witness for C8: a four-component version loses its last segment, and a
dot-free string is returned unchanged. -/
theorem removePatch_drops_last_component_witness :
    removePatch ("96.0.4664" ++ "." ++ "45") = "96.0.4664" ∧
    removePatch "96" = "96" :=
  removePatch_drops_last_component "96.0.4664" "45" "96" (by decide) (by decide)

end ChromeDriverManager
